import Mathlib

/-!
Shallow embedding of the slime-simulation render core (src/main.rs).

The program is a bevy application; the parts the specification speaks about
are: the `Slime` asset record and its byte layout, the `SlimeLoader` asset
loader, `prepare_asset` (GPU buffer allocation + upload), `queue_bind_group`
(per-frame bind-group construction), `SlimePipeline::from_world` (layout and
compute-pipeline compilation request), and the `SlimeNode` render-graph node
(its `update` state machine and its `run` command recording).

32-bit float fields are modelled as their bit patterns (natural numbers);
no float arithmetic ever occurs in the modelled code paths.
-/

/-- The asset record: one f32 `value` plus three declared f32 padding fields
(each field is the 32-bit bit pattern of the float). -/
structure Slime where
  value : Nat
  _padding0 : Nat
  _padding1 : Nat
  _padding2 : Nat
  deriving DecidableEq

/-- `#[derive(Default)]`-equivalent: all fields zero. -/
def Slime.default : Slime := ⟨0, 0, 0, 0⟩

/-- Little-endian bytes of a 32-bit pattern. -/
def leBytes4 (x : Nat) : List Nat :=
  [x % 256, x / 256 % 256, x / 65536 % 256, x / 16777216 % 256]

/-- `bytemuck::cast_slice(&[s])`: the raw bytes of a `Slime` record
(field order as declared). -/
def slimeBytes (s : Slime) : List Nat :=
  leBytes4 s.value ++ leBytes4 s._padding0 ++ leBytes4 s._padding1 ++ leBytes4 s._padding2

/- ### Rust struct layout (for the size/padding invariant)

A field is a (size, alignment) pair; `structSize` is the size the Rust layout
algorithm produces for a given field order: fields are placed in order, each
at the next offset aligned to its alignment, and the total is rounded up to
the struct's alignment.  `Slime` has four f32 fields, i.e. four (4, 4) fields,
whatever order the compiler picks. -/

def alignUp (off a : Nat) : Nat :=
  if a = 0 then off else ((off + a - 1) / a) * a

def placeEnd : Nat → List (Nat × Nat) → Nat
  | off, [] => off
  | off, f :: rest => placeEnd (alignUp off f.2 + f.1) rest

def maxAlign (fields : List (Nat × Nat)) : Nat :=
  fields.foldl (fun a f => max a f.2) 1

def structSize (fields : List (Nat × Nat)) : Nat :=
  alignUp (placeEnd 0 fields) (maxAlign fields)

def structPadding (fields : List (Nat × Nat)) : Nat :=
  structSize fields - (fields.map Prod.fst).sum

/-- The (size, alignment) of the four declared f32 fields of `Slime`. -/
def slimeFields : List (Nat × Nat) := [(4, 4), (4, 4), (4, 4), (4, 4)]

/- ### GPU buffer preparation (`RenderAsset::prepare_asset`) -/

/-- The buffer usage flags; the source sets `STORAGE | COPY_DST`. -/
structure BufferUsages where
  storage : Bool
  copy_dst : Bool
  deriving DecidableEq

/-- The `BufferDescriptor` passed to `create_buffer` (label omitted: `None`). -/
structure BufferDescriptor where
  size : Nat
  usage : BufferUsages
  mapped_at_creation : Bool
  deriving DecidableEq

/-- A device buffer, identified by its creation descriptor. -/
structure Buffer where
  desc : BufferDescriptor
  deriving DecidableEq

/-- The prepared GPU asset: wraps the device buffer. -/
structure GpuSlime where
  buffer : Buffer
  deriving DecidableEq

/-- A host-to-device write issued through the render queue. -/
structure QueueWrite where
  offset : Nat
  data : List Nat
  deriving DecidableEq

/-- `Slime::prepare_asset`: creates the device buffer from the descriptor
written in the source (`size: 4`, usage `STORAGE | COPY_DST`,
`mapped_at_creation: true`) and issues `write_buffer(&buffer, 0, bytes)`
with the record's raw bytes. -/
def prepare_asset (image : Slime) : GpuSlime × QueueWrite :=
  let buffer : Buffer := ⟨{ size := 4, usage := ⟨true, true⟩, mapped_at_creation := true }⟩
  (⟨buffer⟩, { offset := 0, data := slimeBytes image })

/- ### The asset loader (`SlimeLoader::load`) -/

/-- The decode error produced by the external RON decoder. -/
inductive DecodeError
  | ron
  deriving DecidableEq

/-- The slice of the load context the loader touches: the default asset slot
and a count of `set_default_asset` calls (registered artifacts). -/
structure LoadContext where
  default_asset : Option Slime
  set_count : Nat
  deriving DecidableEq

/-- `load_context.set_default_asset(LoadedAsset::new(a))`. -/
def LoadContext.set_default_asset (ctx : LoadContext) (a : Slime) : LoadContext :=
  { default_asset := some a, set_count := ctx.set_count + 1 }

/-- `SlimeLoader::load`: decode the bytes with the external decoder
(`ron::de::from_bytes::<Slime>`, passed as a parameter since it is foreign
code); on error the `?` operator returns the error with the context untouched;
on success the decoded record is registered as the default asset and the
function returns `Ok(())`. -/
def SlimeLoader.load (from_bytes : List Nat → Except DecodeError Slime)
    (bytes : List Nat) (load_context : LoadContext) :
    Except DecodeError Unit × LoadContext :=
  match from_bytes bytes with
  | .error e => (.error e, load_context)
  | .ok custom_asset => (.ok (), load_context.set_default_asset custom_asset)

/- ### The pipeline registry (`SlimePipeline::from_world`) -/

/-- wgpu shader-stage visibility flags. -/
structure ShaderStages where
  vertex : Bool
  fragment : Bool
  compute : Bool
  deriving DecidableEq

/-- `ShaderStages::COMPUTE`. -/
def ShaderStages.COMPUTE : ShaderStages := ⟨false, false, true⟩

/-- The buffer binding type; the source uses `Storage { read_only: false }`. -/
inductive BufferBindingType
  | Uniform
  | Storage (read_only : Bool)
  deriving DecidableEq

/-- The binding type of a layout entry (only the `Buffer` variant occurs). -/
inductive BindingType
  | Buffer (ty : BufferBindingType) (has_dynamic_offset : Bool) (min_binding_size : Option Nat)
  deriving DecidableEq

structure BindGroupLayoutEntry where
  binding : Nat
  visibility : ShaderStages
  ty : BindingType
  deriving DecidableEq

structure BindGroupLayout where
  entries : List BindGroupLayoutEntry
  deriving DecidableEq

/-- `std::mem::size_of::<f32>()`. -/
def size_of_f32 : Nat := 4

/-- The compute-pipeline descriptor queued on the pipeline cache
(label omitted: `None`; the shader is identified by its asset path). -/
structure ComputePipelineDescriptor where
  layout : Option (List BindGroupLayout)
  shader : String
  shader_defs : List String
  entry_point : String
  deriving DecidableEq

/-- The render-world pipeline resource. -/
structure SlimePipeline where
  texture_bind_group_layout : BindGroupLayout
  update_pipeline : ComputePipelineDescriptor
  deriving DecidableEq

/-- `SlimePipeline::from_world`: creates the bind-group layout (one storage
buffer at binding 0, compute-only visibility, minimum binding size
`size_of::<f32>() * 4`), loads the shader by path, and queues the compute
pipeline with that layout and entry point "update". -/
def SlimePipeline.from_world : SlimePipeline :=
  let texture_bind_group_layout : BindGroupLayout :=
    ⟨[{ binding := 0, visibility := ShaderStages.COMPUTE,
        ty := .Buffer (.Storage false) false (some (size_of_f32 * 4)) }]⟩
  { texture_bind_group_layout := texture_bind_group_layout,
    update_pipeline :=
      { layout := some [texture_bind_group_layout],
        shader := "shaders/simple.wgsl",
        shader_defs := [],
        entry_point := "update" } }

/- ### The bind-group builder (`queue_bind_group`)

`queue_bind_group` runs as a system in the render `Queue` stage, i.e. once
every frame.  It indexes `RenderAssets<Slime>` with the extracted handle
(`&slime_store[&slime.0]`): the `Index` implementation panics when the
prepared asset is absent, modelled as an `Except.error`. -/

inductive Panic
  | missingPreparedAsset
  | missingBindGroupResource
  | unwrapFailed
  deriving DecidableEq

/-- One bind-group entry resource: `BindingResource::Buffer(BufferBinding
{ buffer, offset: 0, size: None })`. -/
structure BufferBinding where
  buffer : Buffer
  offset : Nat
  size : Option Nat
  deriving DecidableEq

structure BindGroupEntry where
  binding : Nat
  resource : BufferBinding
  deriving DecidableEq

structure BindGroup where
  entries : List BindGroupEntry
  deriving DecidableEq

/-- `queue_bind_group`: look up the prepared asset for the extracted handle
(panic if absent), then create the bind group with one entry at binding 0
referencing the whole buffer at offset 0. -/
def queue_bind_group (slime_store : Nat → Option GpuSlime) (slime : Nat) :
    Except Panic BindGroup :=
  match slime_store slime with
  | none => .error .missingPreparedAsset
  | some g =>
      .ok ⟨[{ binding := 0, resource := { buffer := g.buffer, offset := 0, size := none } }]⟩

/-- The `Queue` stage across a run: one `queue_bind_group` execution per
frame, each against that frame's prepared-asset store; counts how many bind
groups are created before the run ends or a panic aborts it. -/
def queueStageBuilds : List (Nat → Option GpuSlime) → Nat → Nat
  | [], _ => 0
  | s :: rest, h =>
      match queue_bind_group s h with
      | .ok _ => 1 + queueStageBuilds rest h
      | .error _ => 0

/- ### The graph node (`SlimeNode`): state machine and command recording -/

inductive SlimeState
  | Loading
  | Update
  deriving DecidableEq

/-- State order: `Loading` below `Update` (used to state monotonicity). -/
def SlimeState.le : SlimeState → SlimeState → Bool
  | .Update, .Loading => false
  | _, _ => true

structure SlimeNode where
  state : SlimeState
  deriving DecidableEq

/-- `SlimeNode::default()`. -/
def SlimeNode.default : SlimeNode := ⟨.Loading⟩

/-- The pipeline cache's reported compilation state
(`CachedPipelineState`); the payloads are irrelevant to the node. -/
inductive CachedPipelineState
  | Queued
  | Ok
  | Err
  deriving DecidableEq

/-- `SlimeNode::update`: in `Loading`, transition to `Update` exactly when
the cache reports `Ok`; in `Update`, do nothing. -/
def SlimeNode.update (node : SlimeNode) (q : CachedPipelineState) : SlimeNode :=
  match node.state with
  | .Loading =>
      match q with
      | .Ok => ⟨.Update⟩
      | _ => node
  | .Update => node

/-- The node after a sequence of per-frame `update` calls starting from an
arbitrary node. -/
def runUpdatesFrom (node : SlimeNode) (qs : List CachedPipelineState) : SlimeNode :=
  qs.foldl SlimeNode.update node

/-- The node after a sequence of per-frame `update` calls from the start. -/
def runUpdates (qs : List CachedPipelineState) : SlimeNode :=
  runUpdatesFrom SlimeNode.default qs

/-- Commands recorded on the frame's command encoder during `run`. -/
inductive EncoderCmd
  | begin_compute_pass
  | set_bind_group (slot : Nat) (bg : BindGroup)
  | set_pipeline
  | dispatch_workgroups (x y z : Nat)
  deriving DecidableEq

def isDispatch : EncoderCmd → Bool
  | .dispatch_workgroups _ _ _ => true
  | _ => false

def isPipelineBind : EncoderCmd → Bool
  | .set_pipeline => true
  | _ => false

def countDispatch (cmds : List EncoderCmd) : Nat :=
  (cmds.filter isDispatch).length

/-- `SlimeNode::run`: read the `SlimeBindGroup` resource (a panic if the
resource was never inserted), open a compute pass, set the bind group at
slot 0, then branch on the state: `Loading` records nothing further;
`Update` looks up the compiled pipeline (`.unwrap()`, a panic when absent),
binds it and dispatches (1, 1, 1). -/
def SlimeNode.run (node : SlimeNode) (bind_group_res : Option BindGroup)
    (cached_update_pipeline : Option Unit) : Except Panic (List EncoderCmd) :=
  match bind_group_res with
  | none => .error .missingBindGroupResource
  | some texture_bind_group =>
      let pass := [EncoderCmd.begin_compute_pass, EncoderCmd.set_bind_group 0 texture_bind_group]
      match node.state with
      | .Loading => .ok pass
      | .Update =>
          match cached_update_pipeline with
          | none => .error .unwrapFailed
          | some _ =>
              .ok (pass ++ [EncoderCmd.set_pipeline, EncoderCmd.dispatch_workgroups 1 1 1])

/-- Whether a `run` result recorded a compute dispatch. -/
def dispatchRecorded (r : Except Panic (List EncoderCmd)) : Bool :=
  match r with
  | .ok cmds => cmds.any isDispatch
  | .error _ => false

/-- Whether the execute phase dispatches after the per-frame updates `qs`,
with the bind group and compiled pipeline both available. -/
def frameDispatch (qs : List CachedPipelineState) (bg : BindGroup) : Bool :=
  dispatchRecorded (SlimeNode.run (runUpdates qs) (some bg) (some ()))

/- ### Helper lemmas -/

lemma runUpdatesFrom_cons (n : SlimeNode) (q : CachedPipelineState)
    (rest : List CachedPipelineState) :
    runUpdatesFrom n (q :: rest) = runUpdatesFrom (SlimeNode.update n q) rest := rfl

lemma runUpdatesFrom_state_update_iff (qs : List CachedPipelineState) (n : SlimeNode) :
    (runUpdatesFrom n qs).state = SlimeState.Update ↔
      (n.state = SlimeState.Update ∨ CachedPipelineState.Ok ∈ qs) := by
  induction qs generalizing n with
  | nil => simp [runUpdatesFrom]
  | cons q rest ih =>
      rw [runUpdatesFrom_cons, ih]
      cases n with
      | mk st =>
          cases st <;> cases q <;> simp [SlimeNode.update]

lemma runUpdatesFrom_append (n : SlimeNode) (qs rs : List CachedPipelineState) :
    runUpdatesFrom n (qs ++ rs) = runUpdatesFrom (runUpdatesFrom n qs) rs := by
  simp [runUpdatesFrom, List.foldl_append]

/- ### Claim theorems -/

/-- Claim C1 (code bug): for every record, `prepare_asset` creates the buffer
with usage flags storage plus copy-destination and writes the record's 16 raw
bytes at offset 0, but the allocation size written in the source is 4, not the
record's byte size 16 — the write (and the layout's declared 16-byte minimum
binding size) overruns the allocation. -/
theorem prepare_asset_size_bug :
    ∀ s : Slime,
      (prepare_asset s).1.buffer.desc.usage = ⟨true, true⟩
      ∧ (prepare_asset s).2.offset = 0
      ∧ (prepare_asset s).2.data = slimeBytes s
      ∧ (prepare_asset s).2.data.length = 16
      ∧ (prepare_asset s).1.buffer.desc.size = 4
      ∧ (prepare_asset s).1.buffer.desc.size ≠ 16 := by
  intro s
  refine ⟨rfl, rfl, rfl, rfl, rfl, ?_⟩
  show (4 : Nat) ≠ 16
  decide

/-- Claim C2: the node starts in `Loading`; from `Loading` a single update
moves to `Update` exactly when the query reports `Ok`; once in `Update` no
update changes the state; and over any sequence of updates the state only
ever advances in the `Loading`-before-`Update` order. -/
theorem slime_node_state_monotone :
    SlimeNode.default.state = SlimeState.Loading
    ∧ (∀ q, (SlimeNode.update ⟨SlimeState.Loading⟩ q).state = SlimeState.Update
        ↔ q = CachedPipelineState.Ok)
    ∧ (∀ n q, n.state = SlimeState.Update →
        (SlimeNode.update n q).state = SlimeState.Update)
    ∧ (∀ qs rs, SlimeState.le (runUpdates qs).state (runUpdates (qs ++ rs)).state = true) := by
  refine ⟨rfl, ?_, ?_, ?_⟩
  · intro q
    cases q <;> simp [SlimeNode.update]
  · intro n q h
    cases n with
    | mk st => cases st <;> simp_all [SlimeNode.update]
  · intro qs rs
    simp only [runUpdates, runUpdatesFrom_append]
    rcases hs : (runUpdatesFrom SlimeNode.default qs).state with _ | _
    · cases (runUpdatesFrom (runUpdatesFrom SlimeNode.default qs) rs).state <;> rfl
    · have h2 : (runUpdatesFrom (runUpdatesFrom SlimeNode.default qs) rs).state
          = SlimeState.Update :=
        (runUpdatesFrom_state_update_iff rs _).mpr (Or.inl hs)
      rw [h2]
      rfl

/-- Witness for C2: from `Update`, an update on an `Err` report stays in
`Update`. -/
theorem slime_node_state_monotone_witness :
    (SlimeNode.update ⟨SlimeState.Update⟩ CachedPipelineState.Err).state
      = SlimeState.Update :=
  slime_node_state_monotone.2.2.1 ⟨SlimeState.Update⟩ CachedPipelineState.Err rfl

/-- Claim C3 counterexample: after the query sequence [Ok, Queued] the
execute phase records a dispatch although the most recent update's query did
not report `Ok` — dispatch is not equivalent to the most recent query being
`Ok`. -/
theorem slime_dispatch_not_iff_last_ready :
    ¬ ((frameDispatch [CachedPipelineState.Ok, CachedPipelineState.Queued] ⟨[]⟩ = true)
        ↔ ([CachedPipelineState.Ok, CachedPipelineState.Queued].getLast?
            = some CachedPipelineState.Ok)) := by
  decide

/-- Claim C3 (amended): with bind group and compiled pipeline available, the
execute phase records a dispatch if and only if at least one update call so
far observed the compilation state `Ok`. -/
theorem slime_dispatch_iff_some_ready :
    ∀ (qs : List CachedPipelineState) (bg : BindGroup),
      frameDispatch qs bg = true ↔ CachedPipelineState.Ok ∈ qs := by
  intro qs bg
  have hiff := runUpdatesFrom_state_update_iff qs SlimeNode.default
  rcases hn : runUpdates qs with ⟨st⟩
  rw [runUpdates] at hn
  cases st
  · have hmem : ¬ (CachedPipelineState.Ok ∈ qs) := by
      intro hm
      have h2 := hiff.mpr (Or.inr hm)
      rw [hn] at h2
      simp at h2
    rw [frameDispatch, runUpdates, hn]
    have h3 : dispatchRecorded (SlimeNode.run ⟨SlimeState.Loading⟩ (some bg) (some ()))
        = false := rfl
    rw [h3]
    simp [hmem]
  · have hmem : CachedPipelineState.Ok ∈ qs := by
      have h2 := hiff.mp (by rw [hn])
      rcases h2 with h2 | h2
      · simp [SlimeNode.default] at h2
      · exact h2
    rw [frameDispatch, runUpdates, hn]
    have h3 : dispatchRecorded (SlimeNode.run ⟨SlimeState.Update⟩ (some bg) (some ()))
        = true := rfl
    rw [h3]
    simp [hmem]

/-- Witness for C3 (amended): a single `Ok` query leads to a dispatch. -/
theorem slime_dispatch_iff_some_ready_witness :
    frameDispatch [CachedPipelineState.Ok] ⟨[]⟩ = true :=
  (slime_dispatch_iff_some_ready [CachedPipelineState.Ok] ⟨[]⟩).mpr (List.Mem.head _)

/-- Claim C4: with the bind group present, a `Loading` run records exactly the
opened pass and the bind-group set at slot 0 (no pipeline bind, no dispatch),
and an `Update` run additionally binds the pipeline and dispatches exactly
once with (1, 1, 1) workgroups. -/
theorem slime_node_run_trace :
    ∀ (bg : BindGroup) (p : Option Unit),
      SlimeNode.run ⟨SlimeState.Loading⟩ (some bg) p
        = .ok [EncoderCmd.begin_compute_pass, EncoderCmd.set_bind_group 0 bg]
      ∧ SlimeNode.run ⟨SlimeState.Update⟩ (some bg) (some ())
        = .ok [EncoderCmd.begin_compute_pass, EncoderCmd.set_bind_group 0 bg,
            EncoderCmd.set_pipeline, EncoderCmd.dispatch_workgroups 1 1 1]
      ∧ countDispatch
          [EncoderCmd.begin_compute_pass, EncoderCmd.set_bind_group 0 bg] = 0
      ∧ ([EncoderCmd.begin_compute_pass,
          EncoderCmd.set_bind_group 0 bg].filter isPipelineBind) = []
      ∧ countDispatch
          [EncoderCmd.begin_compute_pass, EncoderCmd.set_bind_group 0 bg,
            EncoderCmd.set_pipeline, EncoderCmd.dispatch_workgroups 1 1 1] = 1 := by
  intro bg p
  exact ⟨rfl, rfl, rfl, rfl, rfl⟩

/-- Claim C5: whenever the prepared GPU resource for the extracted handle is
absent from the store, `queue_bind_group` panics on the unconditional index
instead of skipping bind-group construction. -/
theorem queue_bind_group_panics_when_absent :
    ∀ (slime_store : Nat → Option GpuSlime) (h : Nat),
      slime_store h = none →
        queue_bind_group slime_store h = .error Panic.missingPreparedAsset := by
  intro slime_store h hs
  rw [queue_bind_group, hs]

/-- Witness for C5: the empty store panics. -/
theorem queue_bind_group_panics_when_absent_witness :
    queue_bind_group (fun _ => none) 0 = .error Panic.missingPreparedAsset :=
  queue_bind_group_panics_when_absent (fun _ => none) 0 rfl

/-- Claim C6 counterexample: a two-frame run whose store (and hence buffer
identity) never changes still builds the bind group twice, not exactly once. -/
theorem queue_bind_group_rebuild_cex :
    queueStageBuilds
        (List.replicate 2 (fun _ => some (prepare_asset Slime.default).1)) 0 = 2
      ∧ (2 : Nat) ≠ 1 := by
  exact ⟨rfl, by decide⟩

/-- Claim C6 (amended): the bind group is rebuilt once per frame on every
frame whose store holds the prepared asset, regardless of whether the buffer
identity changed: an n-frame run with a constant store builds n bind
groups. -/
theorem queue_bind_group_builds_every_frame :
    ∀ (n : Nat) (g : GpuSlime) (h : Nat),
      queueStageBuilds (List.replicate n (fun _ => some g)) h = n := by
  intro n g h
  induction n with
  | zero => rfl
  | succ k ih =>
      rw [List.replicate_succ]
      show 1 + queueStageBuilds (List.replicate k (fun _ => some g)) h = k + 1
      rw [ih, Nat.add_comm]

/-- Claim C7: for every decoder, byte input and load context: a decode
failure is returned to the caller with the context untouched (no artifact
registered); a decode success returns `Ok` and registers exactly one
artifact, the decoded record, as the default asset. -/
theorem slime_loader_load_contract :
    ∀ (from_bytes : List Nat → Except DecodeError Slime) (bytes : List Nat)
      (ctx : LoadContext),
      (∀ e, from_bytes bytes = .error e →
        SlimeLoader.load from_bytes bytes ctx = (.error e, ctx))
      ∧ (∀ a, from_bytes bytes = .ok a →
        SlimeLoader.load from_bytes bytes ctx
          = (.ok (), { default_asset := some a, set_count := ctx.set_count + 1 })) := by
  intro from_bytes bytes ctx
  constructor
  · intro e he
    rw [SlimeLoader.load, he]
  · intro a ha
    rw [SlimeLoader.load, ha]
    rfl

/-- Witness for C7: a failing decoder propagates its error and leaves the
fresh context unchanged. -/
theorem slime_loader_load_contract_witness :
    SlimeLoader.load (fun _ => .error DecodeError.ron) [] ⟨none, 0⟩
      = (.error DecodeError.ron, ⟨none, 0⟩) :=
  (slime_loader_load_contract (fun _ => .error DecodeError.ron) [] ⟨none, 0⟩).1
    DecodeError.ron rfl

/-- Claim C8: `Slime` declares four 4-byte fields (one value field plus three
padding fields), and for every field order the compiler may choose, the Rust
layout algorithm yields total size exactly 16 with zero bytes of hidden
padding — the layout's size is stable and contains nothing beyond the
declared fields. -/
theorem slime_layout_16_no_padding :
    slimeFields.length = 4
    ∧ (∀ f ∈ slimeFields, f.1 = 4 ∧ f.2 = 4)
    ∧ ∀ l : List (Nat × Nat), l.Perm slimeFields →
        structSize l = 16 ∧ structPadding l = 0 := by
  refine ⟨rfl, ?_, ?_⟩
  · intro f hf
    have hf4 : f = ((4 : Nat), (4 : Nat)) := by
      simpa [slimeFields] using hf
    simp [hf4]
  · intro l hp
    have hl : l = List.replicate 4 ((4 : Nat), (4 : Nat)) := by
      refine List.eq_replicate_iff.mpr ⟨?_, ?_⟩
      · have hlen := hp.length_eq
        simpa [slimeFields] using hlen
      · intro b hb
        have hb2 : b ∈ slimeFields := hp.subset hb
        simpa [slimeFields] using hb2
    rw [hl]
    constructor <;> rfl

/-- Witness for C8: the declared field order itself has size 16 and no
padding. -/
theorem slime_layout_16_no_padding_witness :
    structSize slimeFields = 16 ∧ structPadding slimeFields = 0 :=
  slime_layout_16_no_padding.2.2 slimeFields (List.Perm.refl _)

/-- Claim C9: `SlimePipeline::from_world` builds a bind-group layout with
exactly one entry — a read-write storage buffer at binding 0, visible only to
the compute stage, minimum binding size 16 bytes — and queues a compute
pipeline using that layout, the loaded shader, and entry point "update". -/
theorem slime_pipeline_from_world_contract :
    SlimePipeline.from_world.texture_bind_group_layout.entries.length = 1
    ∧ SlimePipeline.from_world.texture_bind_group_layout.entries
        = [BindGroupLayoutEntry.mk 0 ⟨false, false, true⟩
            (BindingType.Buffer (BufferBindingType.Storage false) false (some 16))]
    ∧ size_of_f32 * 4 = 16
    ∧ SlimePipeline.from_world.update_pipeline.layout
        = some [SlimePipeline.from_world.texture_bind_group_layout]
    ∧ SlimePipeline.from_world.update_pipeline.shader = "shaders/simple.wgsl"
    ∧ SlimePipeline.from_world.update_pipeline.shader_defs = []
    ∧ SlimePipeline.from_world.update_pipeline.entry_point = "update" :=
  ⟨rfl, rfl, rfl, rfl, rfl, rfl, rfl⟩

/-- Claim C10: `run` reads the shared bind-group resource before branching on
its state, so an absent bind group is fatal in every state — in particular in
`Loading`, where no dispatch would have been recorded anyway. -/
theorem slime_node_run_requires_bind_group :
    ∀ (st : SlimeState) (p : Option Unit),
      SlimeNode.run ⟨st⟩ none p = .error Panic.missingBindGroupResource
      ∧ SlimeNode.run ⟨SlimeState.Loading⟩ none p
          = .error Panic.missingBindGroupResource := by
  intro st p
  cases st <;> exact ⟨rfl, rfl⟩
